import Mathlib

/-!
Verification of `search.py` (ARC Grants Search API client).

The development shallowly embeds the program's pure data transformations:

* JSON-like values carried in grant records (`Value`), with Python's
  `isinstance` classifications translated explicitly (in particular,
  Python's `isinstance(True, int)` is `True`, so booleans count as
  numeric for `isinstance(value, (int, float))`).
* `ARCGrantsAPI.build_filter_query` (lines 27-92).
* `ARCGrantsAPI.fetch_grants` (lines 94-174): the HTTP layer is abstracted
  as a function from page number to the response of the request for that
  page; the `while True` loop becomes fuel-indexed recursion where a
  `none` result marks exhausted fuel (the theorems always supply enough
  fuel, so `none` never occurs in any statement below).
* `ARCGrantsAPI.export_to_csv` (lines 176-214): the written CSV is
  abstracted as the header list plus, per record and column, a `Cell`
  recording exactly which transformation the code applied (JSON-dump,
  scalar pass-through, or empty for missing/None values, `csv` writes
  `None` as an empty field).
* `ARCGrantsAPI.export_to_sqlite` (lines 216-283): the database artifact
  is abstracted as the CREATE TABLE column list, the sequence of issued
  INSERTs (stopping at the first failure, as the raised exception jumps
  to the `except` handler), and the boolean return value.  A Python
  float is carried as its literal text, since only its type tag is ever
  inspected by the program.

Reference (spec-side) definitions are clearly marked and restate the
claims' words, to be compared with the source-side definitions.
-/

/-- JSON-like Python value as held in a grant record's `attributes`:
`None`, `bool`, `int`, `float` (kept as literal text, only its type tag
matters to the program), `str`, `list`, `dict`. -/
inductive Value where
  | vnull
  | vbool (b : Bool)
  | vint (n : Int)
  | vfloat (lit : String)
  | vstr (s : String)
  | vlist (l : List Value)
  | vdict (entries : List (String × Value))

mutual

/-- Decidable equality for `Value` (written by hand because `deriving`
does not handle the nested inductive). -/
def valueDecEq : (a b : Value) → Decidable (a = b)
  | .vnull, .vnull => isTrue rfl
  | .vbool x, .vbool y =>
    match decEq x y with
    | isTrue h => isTrue (by rw [h])
    | isFalse h => isFalse (by intro hc; cases hc; exact h rfl)
  | .vint x, .vint y =>
    match decEq x y with
    | isTrue h => isTrue (by rw [h])
    | isFalse h => isFalse (by intro hc; cases hc; exact h rfl)
  | .vfloat x, .vfloat y =>
    match decEq x y with
    | isTrue h => isTrue (by rw [h])
    | isFalse h => isFalse (by intro hc; cases hc; exact h rfl)
  | .vstr x, .vstr y =>
    match decEq x y with
    | isTrue h => isTrue (by rw [h])
    | isFalse h => isFalse (by intro hc; cases hc; exact h rfl)
  | .vlist x, .vlist y =>
    match valueListDecEq x y with
    | isTrue h => isTrue (by rw [h])
    | isFalse h => isFalse (by intro hc; cases hc; exact h rfl)
  | .vdict x, .vdict y =>
    match entryListDecEq x y with
    | isTrue h => isTrue (by rw [h])
    | isFalse h => isFalse (by intro hc; cases hc; exact h rfl)
  | .vnull, .vbool _ => isFalse (by intro h; cases h)
  | .vnull, .vint _ => isFalse (by intro h; cases h)
  | .vnull, .vfloat _ => isFalse (by intro h; cases h)
  | .vnull, .vstr _ => isFalse (by intro h; cases h)
  | .vnull, .vlist _ => isFalse (by intro h; cases h)
  | .vnull, .vdict _ => isFalse (by intro h; cases h)
  | .vbool _, .vnull => isFalse (by intro h; cases h)
  | .vbool _, .vint _ => isFalse (by intro h; cases h)
  | .vbool _, .vfloat _ => isFalse (by intro h; cases h)
  | .vbool _, .vstr _ => isFalse (by intro h; cases h)
  | .vbool _, .vlist _ => isFalse (by intro h; cases h)
  | .vbool _, .vdict _ => isFalse (by intro h; cases h)
  | .vint _, .vnull => isFalse (by intro h; cases h)
  | .vint _, .vbool _ => isFalse (by intro h; cases h)
  | .vint _, .vfloat _ => isFalse (by intro h; cases h)
  | .vint _, .vstr _ => isFalse (by intro h; cases h)
  | .vint _, .vlist _ => isFalse (by intro h; cases h)
  | .vint _, .vdict _ => isFalse (by intro h; cases h)
  | .vfloat _, .vnull => isFalse (by intro h; cases h)
  | .vfloat _, .vbool _ => isFalse (by intro h; cases h)
  | .vfloat _, .vint _ => isFalse (by intro h; cases h)
  | .vfloat _, .vstr _ => isFalse (by intro h; cases h)
  | .vfloat _, .vlist _ => isFalse (by intro h; cases h)
  | .vfloat _, .vdict _ => isFalse (by intro h; cases h)
  | .vstr _, .vnull => isFalse (by intro h; cases h)
  | .vstr _, .vbool _ => isFalse (by intro h; cases h)
  | .vstr _, .vint _ => isFalse (by intro h; cases h)
  | .vstr _, .vfloat _ => isFalse (by intro h; cases h)
  | .vstr _, .vlist _ => isFalse (by intro h; cases h)
  | .vstr _, .vdict _ => isFalse (by intro h; cases h)
  | .vlist _, .vnull => isFalse (by intro h; cases h)
  | .vlist _, .vbool _ => isFalse (by intro h; cases h)
  | .vlist _, .vint _ => isFalse (by intro h; cases h)
  | .vlist _, .vfloat _ => isFalse (by intro h; cases h)
  | .vlist _, .vstr _ => isFalse (by intro h; cases h)
  | .vlist _, .vdict _ => isFalse (by intro h; cases h)
  | .vdict _, .vnull => isFalse (by intro h; cases h)
  | .vdict _, .vbool _ => isFalse (by intro h; cases h)
  | .vdict _, .vint _ => isFalse (by intro h; cases h)
  | .vdict _, .vfloat _ => isFalse (by intro h; cases h)
  | .vdict _, .vstr _ => isFalse (by intro h; cases h)
  | .vdict _, .vlist _ => isFalse (by intro h; cases h)

/-- Decidable equality for lists of values. -/
def valueListDecEq : (a b : List Value) → Decidable (a = b)
  | [], [] => isTrue rfl
  | [], _ :: _ => isFalse (by intro h; cases h)
  | _ :: _, [] => isFalse (by intro h; cases h)
  | x :: xs, y :: ys =>
    match valueDecEq x y with
    | isFalse h => isFalse (by intro hc; cases hc; exact h rfl)
    | isTrue h1 =>
      match valueListDecEq xs ys with
      | isTrue h2 => isTrue (by rw [h1, h2])
      | isFalse h => isFalse (by intro hc; cases hc; exact h rfl)

/-- Decidable equality for key/value entry lists. -/
def entryListDecEq : (a b : List (String × Value)) → Decidable (a = b)
  | [], [] => isTrue rfl
  | [], _ :: _ => isFalse (by intro h; cases h)
  | _ :: _, [] => isFalse (by intro h; cases h)
  | (k1, v1) :: xs, (k2, v2) :: ys =>
    match decEq k1 k2 with
    | isFalse h => isFalse (by intro hc; cases hc; exact h rfl)
    | isTrue hk =>
      match valueDecEq v1 v2 with
      | isFalse h => isFalse (by intro hc; cases hc; exact h rfl)
      | isTrue hv =>
        match entryListDecEq xs ys with
        | isTrue ht => isTrue (by rw [hk, hv, ht])
        | isFalse h => isFalse (by intro hc; cases hc; exact h rfl)

end

instance : DecidableEq Value := valueDecEq

/-- A grant record from the API's `data` array: an optional `id` string
(the code reads it with `grant.get("id", "")`) and an optional
`attributes` mapping (the code guards every access with
`"attributes" in grant`).  The mapping is carried as an entry list;
lookups take the last binding, matching Python dict semantics where
`json.loads` keeps the last of duplicate keys. -/
structure Grant where
  gid : Option String
  attributes : Option (List (String × Value))

instance : DecidableEq Grant := fun a b => by
  cases a with | mk g1 a1 =>
  cases b with | mk g2 a2 =>
  exact decidable_of_iff (g1 = g2 ∧ a1 = a2) (by rw [Grant.mk.injEq])

/-- Python `dict` lookup on an entry list: the last binding for the key
wins. -/
def lookupLast : List (String × Value) → String → Option Value
  | [], _ => none
  | p :: rest, k =>
    match lookupLast rest k with
    | some v => some v
    | none => if p.1 = k then some p.2 else none

/-- The record's attribute entries, empty when `"attributes"` is absent. -/
def attrEntries (g : Grant) : List (String × Value) :=
  g.attributes.getD []

/-- Python's `isinstance(value, (int, float))`: `True` for `int`,
`float` and `bool` (a Python `bool` is an `int`). -/
def isNumericPy : Value → Bool
  | .vint _ => true
  | .vfloat _ => true
  | .vbool _ => true
  | _ => false

/-- Python's `isinstance(value, (list, dict))`. -/
def isCompound : Value → Bool
  | .vlist _ => true
  | .vdict _ => true
  | _ => false

/-! ## Filter builder (`build_filter_query`, lines 27-92) -/

/-- Python truthiness of an optional string argument: `None` and `""`
are falsy, every other string is truthy. -/
def truthy : Option String → Bool
  | none => false
  | some s => if s = "" then false else true

/-- One rendered criterion, Python's `f'name="value"'`. -/
def renderClause (name value : String) : String :=
  name ++ "=\"" ++ value ++ "\""

/-- The `filter_parts` list built by `build_filter_query` (lines 44-84):
twelve successive conditional appends, in source order. -/
def buildParts (scheme admin_org admin_org_short status year_from year_to
    funding_from funding_to fellowships_only lief_register four_digit_for
    two_digit_for : Option String) : List String :=
  let parts : List String := []
  let parts := if truthy scheme then parts ++ [renderClause "scheme" (scheme.getD "")] else parts
  let parts := if truthy admin_org then parts ++ [renderClause "admin-org-name" (admin_org.getD "")] else parts
  let parts := if truthy admin_org_short then parts ++ [renderClause "admin-org-short-name" (admin_org_short.getD "")] else parts
  let parts := if truthy status then parts ++ [renderClause "status" (status.getD "")] else parts
  let parts := if truthy year_from then parts ++ [renderClause "year-from" (year_from.getD "")] else parts
  let parts := if truthy year_to then parts ++ [renderClause "year-to" (year_to.getD "")] else parts
  let parts := if truthy funding_from then parts ++ [renderClause "funding-from" (funding_from.getD "")] else parts
  let parts := if truthy funding_to then parts ++ [renderClause "funding-to" (funding_to.getD "")] else parts
  let parts := if truthy fellowships_only then parts ++ [renderClause "fellowships-only" (fellowships_only.getD "")] else parts
  let parts := if truthy lief_register then parts ++ [renderClause "lief-register" (lief_register.getD "")] else parts
  let parts := if truthy four_digit_for then parts ++ [renderClause "four-digit-for" (four_digit_for.getD "")] else parts
  let parts := if truthy two_digit_for then parts ++ [renderClause "two-digit-for" (two_digit_for.getD "")] else parts
  parts

/-- Translation of `ARCGrantsAPI.build_filter_query` (lines 27-92).  `filter_query`
starts as `search_text or ""`; the final combination mirrors lines
86-92, with Python truthiness of the string and of the list made
explicit. -/
def build_filter_query (search_text scheme admin_org admin_org_short status
    year_from year_to funding_from funding_to fellowships_only lief_register
    four_digit_for two_digit_for : Option String) : String :=
  let filter_query := search_text.getD ""
  let parts := buildParts scheme admin_org admin_org_short status year_from
    year_to funding_from funding_to fellowships_only lief_register
    four_digit_for two_digit_for
  if filter_query ≠ "" ∧ parts ≠ [] then
    filter_query ++ " => (" ++ String.intercalate " AND " parts ++ ")"
  else if parts ≠ [] then
    "=> (" ++ String.intercalate " AND " parts ++ ")"
  else
    filter_query

/-- Reference definition, following the spec: the twelve optional criteria
paired with "the API's canonical hyphenated field name", in the fixed
order scheme, admin-org-name, admin-org-short-name, status, year-from,
year-to, funding-from, funding-to, fellowships-only, lief-register,
four-digit-for, two-digit-for. -/
def criteriaPairs (scheme admin_org admin_org_short status year_from year_to
    funding_from funding_to fellowships_only lief_register four_digit_for
    two_digit_for : Option String) : List (String × Option String) :=
  [("scheme", scheme),
   ("admin-org-name", admin_org),
   ("admin-org-short-name", admin_org_short),
   ("status", status),
   ("year-from", year_from),
   ("year-to", year_to),
   ("funding-from", funding_from),
   ("funding-to", funding_to),
   ("fellowships-only", fellowships_only),
   ("lief-register", lief_register),
   ("four-digit-for", four_digit_for),
   ("two-digit-for", two_digit_for)]

/-- Reference definition, following the spec: a non-empty criterion is
rendered as `name="value"`, an absent or empty one contributes nothing. -/
def optClause (p : String × Option String) : Option String :=
  match p.2 with
  | none => none
  | some s => if s = "" then none else some (renderClause p.1 s)

/-- Reference definition, following the spec: the list of rendered
clauses of the non-empty criteria, in the canonical order. -/
def specClauses (scheme admin_org admin_org_short status year_from year_to
    funding_from funding_to fellowships_only lief_register four_digit_for
    two_digit_for : Option String) : List String :=
  List.filterMap optClause (criteriaPairs scheme admin_org admin_org_short
    status year_from year_to funding_from funding_to fellowships_only
    lief_register four_digit_for two_digit_for)

/-- Reference definition, following the spec's output rule: both text and
criteria give `"<text> => (<c1> AND <c2> ...)"`, criteria alone give
`"=> (<c1> AND ...)"`, text alone is returned unmodified, and neither
gives the empty string. -/
def filterQuerySpec (search_text scheme admin_org admin_org_short status
    year_from year_to funding_from funding_to fellowships_only lief_register
    four_digit_for two_digit_for : Option String) : String :=
  let text := search_text.getD ""
  let cs := specClauses scheme admin_org admin_org_short status year_from
    year_to funding_from funding_to fellowships_only lief_register
    four_digit_for two_digit_for
  if text ≠ "" ∧ cs ≠ [] then
    text ++ " => (" ++ String.intercalate " AND " cs ++ ")"
  else if cs ≠ [] then
    "=> (" ++ String.intercalate " AND " cs ++ ")"
  else if text ≠ "" then
    text
  else
    ""

/-- All twelve clauses rendered with their (defaulted) values, in the
canonical order; the built parts list is always a sublist of this. -/
def allClauses (scheme admin_org admin_org_short status year_from year_to
    funding_from funding_to fellowships_only lief_register four_digit_for
    two_digit_for : Option String) : List String :=
  (criteriaPairs scheme admin_org admin_org_short status year_from year_to
    funding_from funding_to fellowships_only lief_register four_digit_for
    two_digit_for).map (fun p => renderClause p.1 (p.2.getD ""))

/-! ### Filter builder lemmas -/

lemma appendIf (t : Bool) (xs : List String) (c : String) :
    (if t then xs ++ [c] else xs) = xs ++ (if t then [c] else []) := by
  cases t <;> simp

lemma optClause_toList (n : String) (v : Option String) :
    (optClause (n, v)).toList =
      (if truthy v then [renderClause n (v.getD "")] else []) := by
  cases v with
  | none => rfl
  | some s =>
    by_cases h : s = "" <;> simp [optClause, truthy, h]

lemma filterMap_cons_toList {β γ : Type} (f : β → Option γ) (a : β) (l : List β) :
    List.filterMap f (a :: l) = (f a).toList ++ List.filterMap f l := by
  cases h : f a <;> simp [h]

lemma clausesEq (scheme admin_org admin_org_short status year_from year_to
    funding_from funding_to fellowships_only lief_register four_digit_for
    two_digit_for : Option String) :
    buildParts scheme admin_org admin_org_short status year_from year_to
      funding_from funding_to fellowships_only lief_register four_digit_for
      two_digit_for =
    specClauses scheme admin_org admin_org_short status year_from year_to
      funding_from funding_to fellowships_only lief_register four_digit_for
      two_digit_for := by
  simp only [buildParts, specClauses, criteriaPairs, filterMap_cons_toList,
    optClause_toList, List.filterMap_nil]
  simp only [appendIf]
  simp only [List.nil_append, List.append_nil, List.append_assoc]

lemma optClause_eq_some (p : String × Option String) (c : String)
    (h : optClause p = some c) : c = renderClause p.1 (p.2.getD "") := by
  cases p with
  | mk n v =>
    cases v with
    | none => cases h
    | some s =>
      by_cases hs : s = ""
      · simp [optClause, hs] at h
      · simp [optClause, hs] at h
        simp [h]

lemma filterMap_optClause_sublist (l : List (String × Option String)) :
    List.Sublist (List.filterMap optClause l)
      (l.map (fun p => renderClause p.1 (p.2.getD ""))) := by
  induction l with
  | nil => simp
  | cons p tl ih =>
    cases hp : optClause p with
    | none =>
      simp only [List.filterMap_cons, hp, List.map_cons]
      exact List.Sublist.cons _ ih
    | some c =>
      simp only [List.filterMap_cons, hp, List.map_cons,
        optClause_eq_some p c hp]
      exact List.Sublist.cons₂ _ ih

/-- C2: for every combination of an optional free-text string and the
twelve optional criteria, `build_filter_query` returns
`"<text> => (<c1> AND <c2> ...)"` when both text and at least one
criterion are present, `"=> (<c1> AND ...)"` when only criteria are
present, the text unmodified when only text is present, and the empty
string when neither is present, each non-empty criterion rendered as
`field-name="value"` with the API's canonical hyphenated field name. -/
theorem C2_filter_query_matches_spec (search_text scheme admin_org
    admin_org_short status year_from year_to funding_from funding_to
    fellowships_only lief_register four_digit_for
    two_digit_for : Option String) :
    build_filter_query search_text scheme admin_org admin_org_short status
      year_from year_to funding_from funding_to fellowships_only
      lief_register four_digit_for two_digit_for =
    filterQuerySpec search_text scheme admin_org admin_org_short status
      year_from year_to funding_from funding_to fellowships_only
      lief_register four_digit_for two_digit_for := by
  simp only [build_filter_query, filterQuerySpec, clausesEq]
  by_cases ht : search_text.getD "" = "" <;>
    by_cases hp : specClauses scheme admin_org admin_org_short status
      year_from year_to funding_from funding_to fellowships_only
      lief_register four_digit_for two_digit_for = [] <;>
    simp [ht, hp]

/-- C10: the criteria clauses in `build_filter_query`'s output appear in
one fixed order regardless of which subset is supplied — scheme,
admin-org-name, admin-org-short-name, status, year-from, year-to,
funding-from, funding-to, fellowships-only, lief-register,
four-digit-for, two-digit-for: the built parts list equals the
filter-map of the canonically ordered criteria list and is a sublist of
the fully rendered canonical list. -/
theorem C10_clause_order (scheme admin_org admin_org_short status year_from
    year_to funding_from funding_to fellowships_only lief_register
    four_digit_for two_digit_for : Option String) :
    buildParts scheme admin_org admin_org_short status year_from year_to
      funding_from funding_to fellowships_only lief_register four_digit_for
      two_digit_for =
      List.filterMap optClause (criteriaPairs scheme admin_org
        admin_org_short status year_from year_to funding_from funding_to
        fellowships_only lief_register four_digit_for two_digit_for) ∧
    List.Sublist (buildParts scheme admin_org admin_org_short status
      year_from year_to funding_from funding_to fellowships_only
      lief_register four_digit_for two_digit_for)
      (allClauses scheme admin_org admin_org_short status year_from year_to
        funding_from funding_to fellowships_only lief_register
        four_digit_for two_digit_for) := by
  constructor
  · exact clausesEq scheme admin_org admin_org_short status year_from
      year_to funding_from funding_to fellowships_only lief_register
      four_digit_for two_digit_for
  · rw [clausesEq]
    exact filterMap_optClause_sublist _

/-! ## Paginated fetcher (`fetch_grants`, lines 94-174) -/

/-- Response body of a successful (2xx, JSON-decodable) page request:
the optional top-level `data` array and the truthiness of
`links.next` (false when `links` or `links.next` is absent or falsy). -/
structure Body (α : Type) where
  data : Option (List α)
  linksNext : Bool

/-- Outcome of one `requests.get` for a page:

* `netError`: `requests.get` itself raised (connection failure), so the
  local variable `response` was not assigned by this iteration;
* `httpError s`: the request returned a response with non-2xx status
  `s`, so `response.raise_for_status()` raised inside the `try`;
* `ok body`: a 2xx response whose JSON body decoded. -/
inductive ApiResult (α : Type) where
  | netError
  | httpError (status : Nat)
  | ok (body : Body α)

/-- The diagnostic printed by the `except` branch (lines 133-138) for the
status code it reads off `response`. -/
def errorDiagnostic (s : Nat) : String :=
  if s = 401 ∨ s = 403 then "Authentication error or API access denied."
  else if s = 500 then "Server error. Check your query parameters."
  else "HTTP error: " ++ toString s

/-- The `while True` loop of `fetch_grants` (lines 112-171), with `api`
standing for the HTTP layer (response to the request for a given page
number).  `fuel` bounds the number of iterations; `none` means the fuel
ran out (the loop itself has no such bound).  `respBound` records
whether a previous iteration assigned the local `response` variable.
The result is `Except.error ()` when an uncaught exception escapes the
method: on a `netError` with `response` never bound, the handler's read
of `response.status_code` raises `UnboundLocalError`; with `response`
still bound to the previous page's 2xx response, the handler prints the
generic diagnostic for status 200 and breaks.  All other outcomes
follow lines 127-171: an `httpError` prints its diagnostic and breaks; a
missing `data` key breaks; otherwise the page's records are appended,
the loop breaks when `links.next` is absent or falsy, breaks when
`max_pages` is truthy (non-zero) and the page counter has reached it,
and continues to the next page otherwise. -/
def fetchLoop {α : Type} (api : Nat → ApiResult α) (maxPages : Option Nat) :
    Nat → Nat → Bool → List α → Option (Except Unit (List α))
  | 0, _, _, _ => none
  | fuel + 1, page, respBound, acc =>
    match api page with
    | .netError => if respBound then some (.ok acc) else some (.error ())
    | .httpError _ => some (.ok acc)
    | .ok body =>
      match body.data with
      | none => some (.ok acc)
      | some recs =>
        if body.linksNext then
          if (match maxPages with
              | some m => decide (1 ≤ m) && decide (m ≤ page)
              | none => false) then
            some (.ok (acc ++ recs))
          else
            fetchLoop api maxPages fuel (page + 1) true (acc ++ recs)
        else
          some (.ok (acc ++ recs))

/-- Translation of `ARCGrantsAPI.fetch_grants`: reset the accumulator and run the page
loop from page 1 with `response` not yet bound. -/
def fetch_grants {α : Type} (api : Nat → ApiResult α) (maxPages : Option Nat)
    (fuel : Nat) : Option (Except Unit (List α)) :=
  fetchLoop api maxPages fuel 1 false []

/-- A mock API serving the given pages: page `p` (1-based) answers with
that page's `data` array and a truthy `links.next` exactly when further
pages exist; any other page number answers with an empty final page. -/
def mkApi {α : Type} (pgs : List (List α)) : Nat → ApiResult α :=
  fun p =>
    if h : 1 ≤ p ∧ p ≤ pgs.length then
      .ok ⟨some (pgs.get ⟨p - 1, by omega⟩), decide (p < pgs.length)⟩
    else
      .ok ⟨some [], false⟩

lemma mkApi_pos {α : Type} (pgs : List (List α)) (p : Nat) (h1 : 1 ≤ p)
    (h2 : p ≤ pgs.length) (hp : p - 1 < pgs.length) :
    mkApi pgs p = .ok ⟨some (pgs.get ⟨p - 1, hp⟩), decide (p < pgs.length)⟩ := by
  simp only [mkApi]
  rw [dif_pos ⟨h1, h2⟩]

lemma mkApi_neg {α : Type} (pgs : List (List α)) (p : Nat)
    (h : pgs.length < p) :
    mkApi pgs p = .ok ⟨some [], false⟩ := by
  simp only [mkApi]
  rw [dif_neg]
  omega

lemma fetchLoop_mkApi_none {α : Type} (pgs : List (List α)) :
    ∀ (fuel p : Nat) (b : Bool) (acc : List α), 1 ≤ p → 1 ≤ fuel →
      pgs.length + 1 ≤ p + fuel →
      fetchLoop (mkApi pgs) none fuel p b acc =
        some (.ok (acc ++ (pgs.drop (p - 1)).flatten)) := by
  intro fuel
  induction fuel with
  | zero => intro p b acc _ hf _; omega
  | succ f ih =>
    intro p b acc hp1 _ hlen
    by_cases hp : p ≤ pgs.length
    · have hidx : p - 1 < pgs.length := by omega
      have hdrop : pgs.drop (p - 1) = pgs.get ⟨p - 1, hidx⟩ :: pgs.drop p := by
        rw [List.drop_eq_getElem_cons hidx, List.get_eq_getElem]
        have heq : p - 1 + 1 = p := by omega
        rw [heq]
      by_cases hlt : p < pgs.length
      · have : decide (p < pgs.length) = true := by simp [hlt]
        simp only [fetchLoop, mkApi_pos pgs p hp1 hp hidx, this, if_true]
        rw [ih (p + 1) true (acc ++ pgs.get ⟨p - 1, hidx⟩) (by omega)
          (by omega) (by omega)]
        have heq : p + 1 - 1 = p := by omega
        rw [heq, hdrop]
        simp [List.append_assoc]
      · have : decide (p < pgs.length) = false := by simp [hlt]
        simp only [fetchLoop, mkApi_pos pgs p hp1 hp hidx, this]
        have hdropnil : pgs.drop p = [] := List.drop_eq_nil_of_le (by omega)
        rw [hdrop, hdropnil]
        simp
    · simp only [fetchLoop, mkApi_neg pgs p (by omega)]
      have hdropnil : pgs.drop (p - 1) = [] := List.drop_eq_nil_of_le (by omega)
      rw [hdropnil]
      simp

lemma fetchLoop_mkApi_some {α : Type} (pgs : List (List α)) (m : Nat) :
    ∀ (fuel p : Nat) (b : Bool) (acc : List α), 1 ≤ p → p ≤ m → 1 ≤ fuel →
      pgs.length + 1 ≤ p + fuel →
      fetchLoop (mkApi pgs) (some m) fuel p b acc =
        some (.ok (acc ++ ((pgs.drop (p - 1)).take (m + 1 - p)).flatten)) := by
  intro fuel
  induction fuel with
  | zero => intro p b acc _ _ hf _; omega
  | succ f ih =>
    intro p b acc hp1 hpm _ hlen
    have hm1 : m + 1 - p = (m - p) + 1 := by omega
    by_cases hp : p ≤ pgs.length
    · have hidx : p - 1 < pgs.length := by omega
      have hdrop : pgs.drop (p - 1) = pgs.get ⟨p - 1, hidx⟩ :: pgs.drop p := by
        rw [List.drop_eq_getElem_cons hidx, List.get_eq_getElem]
        have heq : p - 1 + 1 = p := by omega
        rw [heq]
      by_cases hlt : p < pgs.length
      · have hnext : decide (p < pgs.length) = true := by simp [hlt]
        have hm : decide (1 ≤ m) = true := by simp; omega
        by_cases hstop : m ≤ p
        · have : decide (m ≤ p) = true := by simp [hstop]
          simp only [fetchLoop, mkApi_pos pgs p hp1 hp hidx, hnext, hm, this,
            if_true, Bool.and_self]
          rw [hdrop, hm1]
          have hmp : m - p = 0 := by omega
          rw [hmp]
          simp
        · have : decide (m ≤ p) = false := by simp [hstop]
          simp only [fetchLoop, mkApi_pos pgs p hp1 hp hidx, hnext, hm, this,
            if_true, Bool.and_false]
          rw [ih (p + 1) true (acc ++ pgs.get ⟨p - 1, hidx⟩) (by omega)
            (by omega) (by omega) (by omega)]
          have heq : p + 1 - 1 = p := by omega
          have heq2 : m + 1 - (p + 1) = m - p := by omega
          rw [heq, heq2, hdrop, hm1, List.take_succ_cons]
          simp [List.append_assoc]
      · have hnext : decide (p < pgs.length) = false := by simp [hlt]
        simp only [fetchLoop, mkApi_pos pgs p hp1 hp hidx, hnext]
        have hdropnil : pgs.drop p = [] := List.drop_eq_nil_of_le (by omega)
        rw [hdrop, hdropnil, hm1, List.take_succ_cons, List.take_nil]
        simp
    · simp only [fetchLoop, mkApi_neg pgs p (by omega)]
      have hdropnil : pgs.drop (p - 1) = [] := List.drop_eq_nil_of_le (by omega)
      rw [hdropnil]
      simp

/-- C1 (amended): for every sequence of successful page responses,
`fetch_grants` returns the ordered concatenation of each page's `data`
array, terminating normally when `links.next` is absent or falsy; and
when a caller supplies `max_pages = m` with `m ≥ 1`, the returned list
contains exactly the records of the first `m` pages even if further
pages are available.  (The claim's unrestricted `m` fails at `m = 0`:
Python's `if max_pages and page >= max_pages` treats `0` as falsy, so
`max_pages = 0` fetches every page — see the counterexample.) -/
theorem C1_fetch_concatenates_pages {α : Type} (pgs : List (List α))
    (m : Nat) (hm : 1 ≤ m) :
    fetch_grants (mkApi pgs) none (pgs.length + 1) =
      some (.ok pgs.flatten) ∧
    fetch_grants (mkApi pgs) (some m) (pgs.length + 1) =
      some (.ok ((pgs.take m).flatten)) := by
  constructor
  · rw [fetch_grants, fetchLoop_mkApi_none pgs (pgs.length + 1) 1 false []
      (by omega) (by omega) (by omega)]
    simp
  · rw [fetch_grants, fetchLoop_mkApi_some pgs m (pgs.length + 1) 1 false []
      (by omega) hm (by omega) (by omega)]
    simp

/-- C1 witness: three one-record pages; with no page limit all three
records come back in order, with `max_pages = 2` exactly the first two
pages' records come back. -/
theorem C1_fetch_concatenates_pages_witness :
    fetch_grants (mkApi [[(0 : Nat)], [1], [2]]) none 4 =
      some (.ok [0, 1, 2]) ∧
    fetch_grants (mkApi [[(0 : Nat)], [1], [2]]) (some 2) 4 =
      some (.ok [0, 1]) :=
  C1_fetch_concatenates_pages [[(0 : Nat)], [1], [2]] 2 (by decide)

/-- C1 counterexample to the claim as stated: with two pages available
and `max_pages = 0` supplied, the code returns both pages' records,
not the records of the first `0` pages (the empty list), because
Python's truthiness test `if max_pages and page >= max_pages` skips the
limit check when `max_pages` is `0`. -/
theorem C1_max_pages_zero_counterexample :
    fetch_grants (mkApi [[(0 : Nat)], [1]]) (some 0) 3 =
      some (.ok [0, 1]) ∧
    ([0, 1] : List Nat) ≠ (List.take 0 [[(0 : Nat)], [1]]).flatten :=
  ⟨rfl, by decide⟩

/-- C5: the claim says no exception propagates out of `fetch_grants` on
a failed page request; the code violates this on a network error at the
very first page, where the `except` handler's read of
`response.status_code` raises `UnboundLocalError` (`response` was never
assigned).  This theorem evaluates the model at the failing input
(first conjunct), shows the claim's own 500-on-page-2 scenario does
hold (second conjunct: exactly page 1's records, no exception), and
checks the status-specific diagnostics of lines 133-138 (remaining
conjuncts: 401 and 403 share the authentication message, which differs
from the 500 server-error message, which differs from the generic
message used for other statuses such as 404). -/
theorem C5_network_error_first_page_raises :
    fetch_grants (α := Nat) (fun _ => .netError) none 3 =
      some (.error ()) ∧
    fetch_grants (fun p => if p = 1 then .ok ⟨some [(0 : Nat)], true⟩
      else .httpError 500) none 3 = some (.ok [0]) ∧
    errorDiagnostic 500 = "Server error. Check your query parameters." ∧
    errorDiagnostic 401 = errorDiagnostic 403 ∧
    errorDiagnostic 401 ≠ errorDiagnostic 500 ∧
    errorDiagnostic 404 ≠ errorDiagnostic 500 ∧
    errorDiagnostic 404 ≠ errorDiagnostic 401 :=
  ⟨rfl, rfl, rfl, rfl, by decide, by decide, by decide⟩

/-! ## CSV exporter (`export_to_csv`, lines 176-214) -/

/-- Insertion of a string into a sorted list, ascending. -/
def insertSorted (x : String) : List String → List String
  | [] => [x]
  | y :: ys => if x ≤ y then x :: y :: ys else y :: insertSorted x ys

/-- Python's `sorted(...)` on a list of strings (insertion sort). -/
def sortStrings (l : List String) : List String :=
  l.foldr insertSorted []

/-- Python set/dict de-duplication keeping first occurrences. -/
def pyDedupGo : List String → List String → List String
  | [], acc => acc
  | x :: rest, acc =>
    if x ∈ acc then pyDedupGo rest acc else pyDedupGo rest (acc ++ [x])

/-- De-duplicate a list of strings, keeping first occurrences. -/
def pyDedup (l : List String) : List String :=
  pyDedupGo l []

/-- The attribute keys of one record (empty when `attributes` is absent). -/
def keysOf (g : Grant) : List String :=
  (attrEntries g).map Prod.fst

/-- The field list `sorted(list(fieldnames))` where `fieldnames` is the set union of all
records' attribute keys (lines 184-190 and 227-231: both exporters
compute this identically). -/
def sortedKeys (rs : List Grant) : List String :=
  sortStrings (pyDedup (rs.flatMap keysOf))

/-- The CSV header, `["id"] + fieldnames` (line 191). -/
def csvFieldnames (rs : List Grant) : List String :=
  "id" :: sortedKeys rs

/-- A Python value after the export transformation of lines 200-205 and
259-264: lists and dicts become their JSON text (tagged `pjson`), every
other value passes through (tagged `pscalar`). -/
inductive PyVal where
  | pjson (v : Value)
  | pscalar (v : Value)

instance : DecidableEq PyVal := fun a b =>
  match a, b with
  | .pjson v1, .pjson v2 =>
    decidable_of_iff (v1 = v2) (by rw [PyVal.pjson.injEq])
  | .pscalar v1, .pscalar v2 =>
    decidable_of_iff (v1 = v2) (by rw [PyVal.pscalar.injEq])
  | .pjson _, .pscalar _ => isFalse (by intro h; cases h)
  | .pscalar _, .pjson _ => isFalse (by intro h; cases h)

/-- The transformation applied to each attribute value before writing:
`json.dumps(value)` when `isinstance(value, (list, dict))`, the value
itself otherwise. -/
def pyTransform (v : Value) : PyVal :=
  match v with
  | .vlist l => .pjson (.vlist l)
  | .vdict d => .pjson (.vdict d)
  | v => .pscalar v

/-- The row dict's entry for a fieldname (lines 197-205): the dict is
seeded with `{"id": grant.get("id", "")}` and then every attribute is
written under its own key, so an attribute literally named `"id"`
overwrites the seeded record id. -/
def rowGet (g : Grant) (f : String) : Option PyVal :=
  match lookupLast (attrEntries g) f with
  | some v => some (pyTransform v)
  | none => if f = "id" then some (.pscalar (.vstr (g.gid.getD ""))) else none

/-- One written CSV field, abstracted: the empty field, a JSON-dumped
compound value, or a pass-through scalar. -/
inductive Cell where
  | empty
  | jsonCell (v : Value)
  | scalarCell (v : Value)

instance : DecidableEq Cell := fun a b =>
  match a, b with
  | .empty, .empty => isTrue rfl
  | .jsonCell v1, .jsonCell v2 =>
    decidable_of_iff (v1 = v2) (by rw [Cell.jsonCell.injEq])
  | .scalarCell v1, .scalarCell v2 =>
    decidable_of_iff (v1 = v2) (by rw [Cell.scalarCell.injEq])
  | .empty, .jsonCell _ => isFalse (by intro h; cases h)
  | .empty, .scalarCell _ => isFalse (by intro h; cases h)
  | .jsonCell _, .empty => isFalse (by intro h; cases h)
  | .jsonCell _, .scalarCell _ => isFalse (by intro h; cases h)
  | .scalarCell _, .empty => isFalse (by intro h; cases h)
  | .scalarCell _, .jsonCell _ => isFalse (by intro h; cases h)

/-- The field the `csv.DictWriter` writes for a record under a given
fieldname: the `restval` empty field when the row dict has no entry,
the empty field for `None` (which `csv` renders as an empty string),
and otherwise the transformed value. -/
def cellOf (g : Grant) (f : String) : Cell :=
  match rowGet g f with
  | none => .empty
  | some (.pjson v) => .jsonCell v
  | some (.pscalar .vnull) => .empty
  | some (.pscalar v) => .scalarCell v

/-- The CSV artifact: the header row and one row of fields per record. -/
structure CsvExport where
  header : List String
  rows : List (List Cell)

instance : DecidableEq CsvExport := fun a b => by
  cases a with | mk h1 r1 =>
  cases b with | mk h2 r2 =>
  exact decidable_of_iff (h1 = h2 ∧ r1 = r2) (by rw [CsvExport.mk.injEq])

/-- Translation of `ARCGrantsAPI.export_to_csv` (lines 176-214): `none` models the
empty-list early return (`False`, no file created or touched);
otherwise the written file is the header plus one row per record in
accumulation order. -/
def export_to_csv (rs : List Grant) : Option CsvExport :=
  if rs = [] then none
  else some ⟨csvFieldnames rs,
    rs.map (fun g => (csvFieldnames rs).map (cellOf g))⟩

/-- Reference definition, following the claim's words: a cell of the
written CSV holds the record's id in the `id` column, and in an
attribute column the JSON serialization of the value if it is a list or
mapping, the scalar value as-is otherwise, and an empty cell when the
record lacks that attribute or it is null. -/
def csvCellSpec (g : Grant) (f : String) : Cell :=
  if f = "id" then .scalarCell (.vstr (g.gid.getD ""))
  else
    match lookupLast (attrEntries g) f with
    | none => .empty
    | some .vnull => .empty
    | some (.vlist l) => .jsonCell (.vlist l)
    | some (.vdict d) => .jsonCell (.vdict d)
    | some v => .scalarCell v

/-- Reference definition, following the claim's words: for a non-empty
record list the CSV is a header of `id` followed by the sorted union of
all attribute keys, then one row per record in accumulation order with
cells as in `csvCellSpec`. -/
def export_to_csv_spec (rs : List Grant) : Option CsvExport :=
  if rs = [] then none
  else some ⟨"id" :: sortedKeys rs,
    rs.map (fun g => ("id" :: sortedKeys rs).map (csvCellSpec g))⟩

lemma lookupLast_eq_none_iff (l : List (String × Value)) (k : String) :
    lookupLast l k = none ↔ k ∉ l.map Prod.fst := by
  induction l with
  | nil => simp [lookupLast]
  | cons p rest ih =>
    simp only [lookupLast, List.map_cons, List.mem_cons]
    cases h : lookupLast rest k with
    | some v =>
      rw [h] at ih
      simp only [reduceCtorEq, false_iff, not_not] at ih
      simp [ih]
    | none =>
      rw [h] at ih
      simp only [true_iff] at ih
      by_cases hp : p.1 = k
      · simp [hp]
      · simp [hp, ih]
        exact fun hk => hp hk.symm

lemma cellOf_eq_spec (g : Grant) (f : String)
    (hid : f = "id" → lookupLast (attrEntries g) "id" = none) :
    cellOf g f = csvCellSpec g f := by
  by_cases hf : f = "id"
  · subst hf
    simp [cellOf, rowGet, hid rfl, csvCellSpec]
  · simp only [cellOf, rowGet, csvCellSpec, if_neg hf]
    cases h : lookupLast (attrEntries g) f with
    | none => simp [hf]
    | some v => cases v <;> simp [pyTransform]

/-- C3 (amended): for every non-empty record list in which no record's
attributes mapping contains the key `id`, the CSV export writes a
header of `id` followed by the sorted union of all attribute keys
across every record, then one row per record in accumulation order,
where each attribute cell holds the JSON serialization of the value if
it is a list or mapping, the scalar value as-is otherwise, and an empty
cell when the record lacks that attribute or it is null, and the `id`
cell holds the record's id.  (Without the no-`id`-attribute proviso the
claim fails: the row dict is seeded with the record id and then
attributes are written over it, so an attribute literally named `id`
replaces the record id in the written row — see the counterexample.) -/
theorem C3_csv_export_matches_spec (rs : List Grant) (hne : rs ≠ [])
    (hid : ∀ g ∈ rs, "id" ∉ keysOf g) :
    export_to_csv rs = export_to_csv_spec rs := by
  simp only [export_to_csv, export_to_csv_spec, csvFieldnames,
    if_neg hne]
  have hrows : rs.map (fun g => ("id" :: sortedKeys rs).map (cellOf g)) =
      rs.map (fun g => ("id" :: sortedKeys rs).map (csvCellSpec g)) := by
    apply List.map_congr_left
    intro g hg
    apply List.map_congr_left
    intro f _
    exact cellOf_eq_spec g f
      (fun _ => (lookupLast_eq_none_iff _ _).mpr (hid g hg))
  rw [hrows]

/-- C3 witness: the spec's own example records (one with a compound
`tags` value, one lacking it). -/
theorem C3_csv_export_matches_spec_witness :
    export_to_csv
      [⟨some "A", some [("scheme", Value.vstr "X"),
        ("tags", Value.vlist [Value.vstr "a", Value.vstr "b"])]⟩,
       ⟨some "B", some [("scheme", Value.vstr "Y")]⟩] =
    export_to_csv_spec
      [⟨some "A", some [("scheme", Value.vstr "X"),
        ("tags", Value.vlist [Value.vstr "a", Value.vstr "b"])]⟩,
       ⟨some "B", some [("scheme", Value.vstr "Y")]⟩] :=
  C3_csv_export_matches_spec
    [⟨some "A", some [("scheme", Value.vstr "X"),
      ("tags", Value.vlist [Value.vstr "a", Value.vstr "b"])]⟩,
     ⟨some "B", some [("scheme", Value.vstr "Y")]⟩]
    (by decide) (by decide)

/-- C3 counterexample to the claim as stated: a record whose attributes
contain the key `id` — the written `id` cells hold the transformed
attribute value `"X"`, not the record's id `"A"` as the claim requires,
because `row[key] = value` overwrites the seeded `{"id": ...}` entry. -/
theorem C3_id_attribute_counterexample :
    export_to_csv [⟨some "A", some [("id", Value.vstr "X")]⟩] ≠
      export_to_csv_spec [⟨some "A", some [("id", Value.vstr "X")]⟩] := by
  decide

/-! ## SQLite exporter (`export_to_sqlite`, lines 216-283) -/

/-- Python's `field.replace("-", "_")` (lines 247 and 262-264): replacement of a
single character is a character-wise map. -/
def safeField (s : String) : String :=
  String.mk (s.data.map (fun c => if c = '-' then '_' else c))

/-- Column type inference (lines 236-244): scan the records in
accumulation order; a present, non-`None` value satisfying
`isinstance(value, (int, float))` sets `REAL` and `break`s; any other
value — `None`, a missing attribute, or a non-numeric value — falls
through and the scan continues; `TEXT` when the scan finds no numeric
value at all. -/
def inferFieldType : List Grant → String → String
  | [], _ => "TEXT"
  | g :: rest, f =>
    match lookupLast (attrEntries g) f with
    | some .vnull => inferFieldType rest f
    | some v => if isNumericPy v then "REAL" else inferFieldType rest f
    | none => inferFieldType rest f

/-- The CREATE TABLE column list (lines 234-248): `id TEXT PRIMARY KEY`,
then each attribute key in sorted order with hyphens replaced by
underscores and its inferred type. -/
def tableFields (rs : List Grant) : List (String × String) :=
  ("id", "TEXT PRIMARY KEY") ::
    (sortedKeys rs).map (fun f => (safeField f, inferFieldType rs f))

/-- The column names of the created table. -/
def sqliteColumnNames (rs : List Grant) : List String :=
  (tableFields rs).map Prod.fst

/-- The keys of one record's `values` dict (lines 256-264): `id` first,
then each attribute key normalized, first occurrence kept (re-assigning
an existing dict key does not move it). -/
def insertColumns (g : Grant) : List String :=
  pyDedup ("id" :: (attrEntries g).map (fun p => safeField p.1))

/-- The value the INSERT carries in the `id` column (lines 256-264): the
dict is seeded with `grant.get("id", "")` and attributes are then
stored under their normalized keys, so an attribute whose normalized
key is `id` (only the key `id` itself normalizes to `id`) overwrites
the record id. -/
def rowIdValue (g : Grant) : PyVal :=
  match lookupLast ((attrEntries g).map (fun p => (safeField p.1, p.2))) "id" with
  | some v => pyTransform v
  | none => .pscalar (.vstr (g.gid.getD ""))

/-- The sequence of `id`-column values the insert loop tries, in record
order. -/
def rowIds (rs : List Grant) : List PyVal :=
  rs.map rowIdValue

/-- The INSERT loop (lines 254-273) projected to the primary-key column:
each row's id value is inserted unless already present, in which case
the storage engine raises an integrity error that jumps to the `except`
handler, so no further INSERT is attempted; `.error` carries the ids
issued before the failure. -/
def insertIds : List PyVal → List PyVal → Except (List PyVal) (List PyVal)
  | [], acc => .ok acc
  | x :: rest, acc =>
    if x ∈ acc then .error acc else insertIds rest (acc ++ [x])

/-- The SQLite artifact: the created table's columns, the id values of
the rows whose INSERT was issued, and the method's boolean return. -/
structure SqliteExport where
  columns : List (String × String)
  inserted : List PyVal
  success : Bool

instance : DecidableEq SqliteExport := fun a b => by
  cases a with | mk c1 i1 s1 =>
  cases b with | mk c2 i2 s2 =>
  exact decidable_of_iff (c1 = c2 ∧ i1 = i2 ∧ s1 = s2)
    (by rw [SqliteExport.mk.injEq])

/-- Translation of `ARCGrantsAPI.export_to_sqlite` (lines 216-283): `none` models the
empty-list early return (`False`, no database touched).  Otherwise the
table is dropped and recreated; a duplicate column name (an attribute
key `id`, or two keys identified by hyphen normalization) makes CREATE
TABLE itself raise, caught as a failed export with no insert issued;
otherwise the rows are inserted until the first duplicate id, a
complete run commits and returns `True`. -/
def export_to_sqlite (rs : List Grant) : Option SqliteExport :=
  if rs = [] then none
  else if (sqliteColumnNames rs).Nodup then
    match insertIds (rowIds rs) [] with
    | .ok l => some ⟨tableFields rs, l, true⟩
    | .error l => some ⟨tableFields rs, l, false⟩
  else some ⟨tableFields rs, [], false⟩

/-! ## The export phase of `main` (lines 381-384): both exporters read
the shared record list and neither writes it; modelled in state-passing
style, each exporter returns its result together with the record list
it leaves behind. -/

/-- The method `export_to_csv` as a state transformer on the shared record list:
the method only reads `self.results` (lines 178-209), so the state
comes back unchanged. -/
def exportCsvS (st : List Grant) : Option CsvExport × List Grant :=
  (export_to_csv st, st)

/-- The method `export_to_sqlite` as a state transformer on the shared record list:
the method only reads `self.results` (lines 218-278), so the state
comes back unchanged. -/
def exportSqliteS (st : List Grant) : Option SqliteExport × List Grant :=
  (export_to_sqlite st, st)

/-- The export phase in source order (line 382 then 383): CSV first,
then SQLite on whatever list the CSV export left behind. -/
def runCsvThenSqlite (st : List Grant) :
    Option CsvExport × Option SqliteExport × List Grant :=
  let c := exportCsvS st
  let s := exportSqliteS c.2
  (c.1, s.1, s.2)

/-- The export phase in the opposite order: SQLite first, then CSV on
whatever list the SQLite export left behind. -/
def runSqliteThenCsv (st : List Grant) :
    Option CsvExport × Option SqliteExport × List Grant :=
  let s := exportSqliteS st
  let c := exportCsvS s.2
  (c.1, s.1, c.2)

/-- Reference definition, following the claim's words: the first
non-null value encountered for an attribute key, scanning records in
accumulation order (missing and null values are skipped). -/
def firstNonNull : List Grant → String → Option Value
  | [], _ => none
  | g :: rest, f =>
    match lookupLast (attrEntries g) f with
    | some .vnull => firstNonNull rest f
    | some v => some v
    | none => firstNonNull rest f

/-- Reference definition, following the claim's words: numeric means
integer or floating-point. -/
def claimNumeric : Value → Bool
  | .vint _ => true
  | .vfloat _ => true
  | _ => false

/-- Reference definition, following the claim's words: the column type
is REAL when the first non-null value is numeric and TEXT in every
other case, including when no non-null value is found. -/
def claimInferType (rs : List Grant) (f : String) : String :=
  match firstNonNull rs f with
  | some v => if claimNumeric v then "REAL" else "TEXT"
  | none => "TEXT"

/-- C4: the claim (and the code's own comment, line 236, "Guess field
type based on first non-null value") says a non-numeric first non-null
value yields TEXT even when later values are numeric.  The code
disagrees: its scan only `break`s when a numeric value is found, so a
later numeric value flips the column to REAL.  At the failing input —
`funding` is the string `"hello"` in the first record and the integer
`50000` in the second — the first non-null value is the string, the
claim's rule gives TEXT, but `export_to_sqlite`'s inference gives REAL
(shown both on the inference function and on the created column list). -/
theorem C4_first_nonnull_type_divergence :
    firstNonNull
      [⟨some "A", some [("funding", Value.vstr "hello")]⟩,
       ⟨some "B", some [("funding", Value.vint 50000)]⟩] "funding" =
      some (Value.vstr "hello") ∧
    claimInferType
      [⟨some "A", some [("funding", Value.vstr "hello")]⟩,
       ⟨some "B", some [("funding", Value.vint 50000)]⟩] "funding" =
      "TEXT" ∧
    inferFieldType
      [⟨some "A", some [("funding", Value.vstr "hello")]⟩,
       ⟨some "B", some [("funding", Value.vint 50000)]⟩] "funding" =
      "REAL" ∧
    tableFields
      [⟨some "A", some [("funding", Value.vstr "hello")]⟩,
       ⟨some "B", some [("funding", Value.vint 50000)]⟩] =
      [("id", "TEXT PRIMARY KEY"), ("funding", "REAL")] := by
  decide

/-- C6: for the empty record list both exporters signal failure and
produce no artifact — the `none` results model the early `return False`
taken before any file is opened or any database is connected. -/
theorem C6_empty_exports_fail :
    export_to_csv [] = none ∧ export_to_sqlite [] = none :=
  ⟨rfl, rfl⟩

/-- C9: neither exporter mutates the shared record list — each
state-passing exporter returns the list unchanged — so the export phase
gives the same results in either order. -/
theorem C9_exporters_do_not_mutate (rs : List Grant) :
    (exportCsvS rs).2 = rs ∧ (exportSqliteS rs).2 = rs ∧
    runCsvThenSqlite rs = runSqliteThenCsv rs :=
  ⟨rfl, rfl, rfl⟩

/-! ### Key-set lemmas -/

lemma mem_insertSorted (x y : String) (l : List String) :
    x ∈ insertSorted y l ↔ x = y ∨ x ∈ l := by
  induction l with
  | nil => simp [insertSorted]
  | cons z zs ih =>
    by_cases h : y ≤ z
    · simp [insertSorted, h]
    · simp [insertSorted, h, ih]
      tauto

lemma mem_sortStrings (x : String) (l : List String) :
    x ∈ sortStrings l ↔ x ∈ l := by
  induction l with
  | nil => simp [sortStrings]
  | cons a as ih =>
    simp only [sortStrings, List.foldr_cons] at ih ⊢
    rw [mem_insertSorted, ih, List.mem_cons]

lemma mem_pyDedupGo (x : String) :
    ∀ (l acc : List String), x ∈ pyDedupGo l acc ↔ x ∈ acc ∨ x ∈ l := by
  intro l
  induction l with
  | nil => intro acc; simp [pyDedupGo]
  | cons y rest ih =>
    intro acc
    by_cases hy : y ∈ acc
    · rw [pyDedupGo, if_pos hy, ih, List.mem_cons]
      constructor
      · rintro (h | h)
        · exact Or.inl h
        · exact Or.inr (Or.inr h)
      · rintro (h | h | h)
        · exact Or.inl h
        · exact Or.inl (h ▸ hy)
        · exact Or.inr h
    · rw [pyDedupGo, if_neg hy, ih]
      simp only [List.mem_append, List.mem_cons, List.not_mem_nil, or_false]
      tauto

lemma mem_sortedKeys (rs : List Grant) (k : String) :
    k ∈ sortedKeys rs ↔ ∃ g ∈ rs, k ∈ keysOf g := by
  rw [sortedKeys, mem_sortStrings, pyDedup, mem_pyDedupGo]
  simp [List.mem_flatMap]

lemma dash_not_mem_safeField (s : String) : '-' ∉ (safeField s).data := by
  simp only [safeField]
  intro hmem
  obtain ⟨c, _, hc⟩ := List.mem_map.mp hmem
  by_cases h : c = '-' <;> simp [h] at hc

lemma safeField_ne_of_dash (k : String) (hd : '-' ∈ k.data) (s : String) :
    k ≠ safeField s := by
  intro h
  exact dash_not_mem_safeField s (h ▸ hd)

lemma sqliteColumnNames_eq (rs : List Grant) :
    sqliteColumnNames rs = "id" :: (sortedKeys rs).map safeField := by
  simp [sqliteColumnNames, tableFields, List.map_map, Function.comp]

/-- C8: an attribute key containing a hyphen appears unchanged in the
CSV header but only in hyphen-to-underscore normalized form among the
SQLite table's columns and the per-record INSERT columns, so the two
artifacts spell the same logical field differently. -/
theorem C8_hyphen_normalization (rs : List Grant) (g : Grant) (k : String)
    (hg : g ∈ rs) (hk : k ∈ keysOf g) (hd : '-' ∈ k.data) :
    k ∈ csvFieldnames rs ∧
    safeField k ∈ sqliteColumnNames rs ∧
    k ∉ sqliteColumnNames rs ∧
    safeField k ≠ k ∧
    safeField k ∈ insertColumns g ∧
    k ∉ insertColumns g := by
  have hid : k ≠ "id" := by
    intro h
    subst h
    exact absurd hd (by decide)
  have hsk : k ∈ sortedKeys rs := (mem_sortedKeys rs k).mpr ⟨g, hg, hk⟩
  refine ⟨List.mem_cons_of_mem _ hsk, ?_, ?_, ?_, ?_, ?_⟩
  · rw [sqliteColumnNames_eq]
    exact List.mem_cons_of_mem _ (List.mem_map_of_mem safeField hsk)
  · rw [sqliteColumnNames_eq]
    intro hmem
    rcases List.mem_cons.mp hmem with h | h
    · exact hid h
    · obtain ⟨f, _, hf⟩ := List.mem_map.mp h
      exact safeField_ne_of_dash k hd f hf.symm
  · intro h
    exact safeField_ne_of_dash k hd k h.symm
  · rw [insertColumns, pyDedup, mem_pyDedupGo]
    refine Or.inr (List.mem_cons_of_mem _ ?_)
    obtain ⟨p, hp, hpk⟩ := List.mem_map.mp hk
    exact List.mem_map.mpr ⟨p, hp, by rw [hpk]⟩
  · rw [insertColumns, pyDedup, mem_pyDedupGo]
    rintro (h | h)
    · exact absurd h (List.not_mem_nil k)
    · rcases List.mem_cons.mp h with h | h
      · exact hid h
      · obtain ⟨p, _, hp⟩ := List.mem_map.mp h
        exact safeField_ne_of_dash k hd p.1 hp.symm

/-- C8 witness: one record with the hyphenated key `admin-org-name`. -/
theorem C8_hyphen_normalization_witness :
    "admin-org-name" ∈ csvFieldnames
      [⟨some "A", some [("admin-org-name", Value.vstr "U")]⟩] ∧
    safeField "admin-org-name" ∈ sqliteColumnNames
      [⟨some "A", some [("admin-org-name", Value.vstr "U")]⟩] ∧
    "admin-org-name" ∉ sqliteColumnNames
      [⟨some "A", some [("admin-org-name", Value.vstr "U")]⟩] ∧
    safeField "admin-org-name" ≠ "admin-org-name" ∧
    safeField "admin-org-name" ∈ insertColumns
      ⟨some "A", some [("admin-org-name", Value.vstr "U")]⟩ ∧
    "admin-org-name" ∉ insertColumns
      ⟨some "A", some [("admin-org-name", Value.vstr "U")]⟩ :=
  C8_hyphen_normalization
    [⟨some "A", some [("admin-org-name", Value.vstr "U")]⟩]
    ⟨some "A", some [("admin-org-name", Value.vstr "U")]⟩
    "admin-org-name" (by decide) (by decide) (by decide)

/-! ### Duplicate-id lemmas -/

/-- Reference definition, following the claim's words: the id values
inserted before the first duplicate — the maximal duplicate-free front
of the id sequence (`acc` accumulates the front built so far). -/
def dupFreeFrontGo : List PyVal → List PyVal → List PyVal
  | [], acc => acc
  | x :: rest, acc =>
    if x ∈ acc then acc else dupFreeFrontGo rest (acc ++ [x])

/-- Reference definition: the maximal duplicate-free front of a list of
id values. -/
def dupFreeFront (l : List PyVal) : List PyVal :=
  dupFreeFrontGo l []

lemma insertIds_ok (l : List PyVal) :
    ∀ acc : List PyVal, (acc ++ l).Nodup →
      insertIds l acc = .ok (acc ++ l) := by
  induction l with
  | nil => intro acc _; simp [insertIds]
  | cons x rest ih =>
    intro acc hnd
    have hx : x ∉ acc := by
      intro hx
      rw [List.nodup_append] at hnd
      exact hnd.2.2 hx (List.mem_cons_self x rest)
    rw [insertIds, if_neg hx, ih]
    · rw [List.append_assoc, List.singleton_append]
    · rw [List.append_assoc, List.singleton_append]
      exact hnd

lemma insertIds_dup (l : List PyVal) :
    ∀ acc : List PyVal, acc.Nodup → ¬ (acc ++ l).Nodup →
      ∃ n, n < l.length ∧
        dupFreeFrontGo l acc = acc ++ l.take n ∧
        (acc ++ l.take n).Nodup ∧
        l.getD n (.pscalar .vnull) ∈ acc ++ l.take n ∧
        insertIds l acc = .error (acc ++ l.take n) := by
  induction l with
  | nil =>
    intro acc hacc hdup
    exact absurd (by simpa using hacc) hdup
  | cons x rest ih =>
    intro acc hacc hdup
    by_cases hx : x ∈ acc
    · refine ⟨0, by simp, ?_, ?_, ?_, ?_⟩
      · simp [dupFreeFrontGo, hx]
      · simpa using hacc
      · simpa using hx
      · simp [insertIds, hx]
    · have hacc' : (acc ++ [x]).Nodup := by
        rw [List.nodup_append]
        exact ⟨hacc, List.nodup_singleton x,
          by simpa [List.disjoint_singleton] using hx⟩
      have hdup' : ¬ ((acc ++ [x]) ++ rest).Nodup := by
        rw [List.append_assoc, List.singleton_append]
        exact hdup
      obtain ⟨n, hn, hfront, hnodup, hmem, hins⟩ := ih (acc ++ [x]) hacc' hdup'
      have hshape : acc ++ (x :: rest).take (n + 1) = (acc ++ [x]) ++ rest.take n := by
        rw [List.take_succ_cons, List.append_assoc, List.singleton_append]
      refine ⟨n + 1, by simp; omega, ?_, ?_, ?_, ?_⟩
      · rw [dupFreeFrontGo, if_neg hx, hfront, hshape]
      · rw [hshape]; exact hnodup
      · rw [List.getD_cons_succ, hshape]; exact hmem
      · rw [insertIds, if_neg hx, hins, hshape]

/-- The record ids as the insert loop seeds them, `grant.get("id", "")`. -/
def recordIds (rs : List Grant) : List String :=
  rs.map (fun g => g.gid.getD "")

lemma rowIds_eq_of_nodup_cols (rs : List Grant)
    (hcols : (sqliteColumnNames rs).Nodup) :
    rowIds rs = (recordIds rs).map (fun s => PyVal.pscalar (Value.vstr s)) := by
  rw [rowIds, recordIds, List.map_map]
  apply List.map_congr_left
  intro g hg
  have hnone :
      lookupLast ((attrEntries g).map (fun p => (safeField p.1, p.2))) "id" =
        none := by
    rw [lookupLast_eq_none_iff, List.map_map]
    intro hmem
    obtain ⟨p, hp, hpid⟩ := List.mem_map.mp hmem
    have h1 : p.1 ∈ sortedKeys rs :=
      (mem_sortedKeys rs p.1).mpr ⟨g, hg, List.mem_map_of_mem Prod.fst hp⟩
    have h2 : "id" ∈ (sortedKeys rs).map safeField :=
      List.mem_map.mpr ⟨p.1, h1, by simpa using hpid⟩
    rw [sqliteColumnNames_eq] at hcols
    exact (List.nodup_cons.mp hcols).1 h2
  simp [rowIdValue, hnone, Function.comp]

/-- C7 (amended): for every record list containing two records with the
same id, provided the derived column names are pairwise distinct (no
attribute key `id` and no two keys identified by hyphen normalization),
the insert loop issues exactly the maximal duplicate-free front of the
id sequence — the insert of the first repeated id fails and no further
insert is attempted — `export_to_sqlite` returns failure, and the CSV
exporter is still attempted on the same list.  (Without the proviso the
claim as stated fails: an attribute key `id` makes CREATE TABLE itself
raise on a duplicate column name, so the export returns failure before
any insert is issued — see the counterexample.) -/
theorem C7_duplicate_id_aborts (rs : List Grant)
    (hcols : (sqliteColumnNames rs).Nodup)
    (hdup : ¬ (recordIds rs).Nodup) :
    export_to_sqlite rs =
      some ⟨tableFields rs, dupFreeFront (rowIds rs), false⟩ ∧
    (dupFreeFront (rowIds rs)).Nodup ∧
    (rowIds rs).take (dupFreeFront (rowIds rs)).length =
      dupFreeFront (rowIds rs) ∧
    (dupFreeFront (rowIds rs)).length < (rowIds rs).length ∧
    (rowIds rs).getD (dupFreeFront (rowIds rs)).length (.pscalar .vnull) ∈
      dupFreeFront (rowIds rs) ∧
    export_to_csv rs ≠ none := by
  have hrow := rowIds_eq_of_nodup_cols rs hcols
  have hdup' : ¬ (rowIds rs).Nodup := by
    intro hnd
    rw [hrow] at hnd
    exact hdup (List.Nodup.of_map _ hnd)
  have hne : rs ≠ [] := by
    intro h
    subst h
    exact hdup (by simp [recordIds])
  obtain ⟨n, hn, hfront, hnodup, hmem, hins⟩ :=
    insertIds_dup (rowIds rs) [] List.nodup_nil (by simpa using hdup')
  simp only [List.nil_append] at hfront hnodup hmem hins
  have hfront' : dupFreeFront (rowIds rs) = (rowIds rs).take n := by
    rw [dupFreeFront, hfront]
  have hlen : (dupFreeFront (rowIds rs)).length = n := by
    rw [hfront', List.length_take]
    exact Nat.min_eq_left (Nat.le_of_lt hn)
  refine ⟨?_, ?_, ?_, ?_, ?_, ?_⟩
  · rw [export_to_sqlite, if_neg hne, if_pos hcols, hins, hfront']
  · rw [hfront']
    exact hnodup
  · rw [hlen, hfront']
  · rw [hlen]
    exact hn
  · rw [hlen, hfront']
    exact hmem
  · rw [export_to_csv, if_neg hne]
    simp

/-- C7 witness: two records sharing the id `A`; the first insert is
issued, the second fails, the export reports failure, and the CSV
export still proceeds. -/
theorem C7_duplicate_id_aborts_witness :
    export_to_sqlite [⟨some "A", some []⟩, ⟨some "A", some []⟩] =
      some ⟨tableFields [⟨some "A", some []⟩, ⟨some "A", some []⟩],
        dupFreeFront (rowIds [⟨some "A", some []⟩, ⟨some "A", some []⟩]),
        false⟩ ∧
    (dupFreeFront (rowIds [⟨some "A", some []⟩, ⟨some "A", some []⟩])).Nodup ∧
    (rowIds [⟨some "A", some []⟩, ⟨some "A", some []⟩]).take
      (dupFreeFront (rowIds [⟨some "A", some []⟩, ⟨some "A", some []⟩])).length =
      dupFreeFront (rowIds [⟨some "A", some []⟩, ⟨some "A", some []⟩]) ∧
    (dupFreeFront (rowIds [⟨some "A", some []⟩, ⟨some "A", some []⟩])).length <
      (rowIds [⟨some "A", some []⟩, ⟨some "A", some []⟩]).length ∧
    (rowIds [⟨some "A", some []⟩, ⟨some "A", some []⟩]).getD
      (dupFreeFront (rowIds [⟨some "A", some []⟩, ⟨some "A", some []⟩])).length
      (.pscalar .vnull) ∈
      dupFreeFront (rowIds [⟨some "A", some []⟩, ⟨some "A", some []⟩]) ∧
    export_to_csv [⟨some "A", some []⟩, ⟨some "A", some []⟩] ≠ none :=
  C7_duplicate_id_aborts [⟨some "A", some []⟩, ⟨some "A", some []⟩]
    (by decide) (by decide)

/-- C7 counterexample to the claim as stated: two records share the id
`A`, but the first record's attributes contain the key `id`, so CREATE
TABLE raises on the duplicate column name and the export fails before
any insert is issued — no "second insert" ever fails (the issued-insert
list is empty, not the one-element front the claim implies), though the
method still returns failure. -/
theorem C7_id_attribute_counterexample :
    export_to_sqlite
      [⟨some "A", some [("id", Value.vstr "X")]⟩, ⟨some "A", some []⟩] =
      some ⟨[("id", "TEXT PRIMARY KEY"), ("id", "TEXT")], [], false⟩ ∧
    recordIds
      [⟨some "A", some [("id", Value.vstr "X")]⟩, ⟨some "A", some []⟩] =
      ["A", "A"] ∧
    ([] : List PyVal) ≠
      dupFreeFront (rowIds
        [⟨some "A", some [("id", Value.vstr "X")]⟩, ⟨some "A", some []⟩]) := by
  refine ⟨by decide, by decide, by decide⟩
